import Mathlib

/-
Verification of the language-moderation pipeline of the repository
(a Telegram bot that flags non-English channel posts): the classifier
`isEnglish`, the translator `translateText`, the image extractor
`analyzeImage` (src/services/language.ts, src/services/image.ts and the
inlined copies in src/index.ts), and the `channel_post` dispatch policy of
src/index.ts.

Modelling conventions: the external collaborators (the local statistical
detector `langdetect.detect`, the remote chat-completion service, and the
Telegram file-resolution call) are modelled as explicit outcome values
passed to each function — one outcome value stands for the collaborator's
behaviour on the one call the function makes for the given input. A thrown
exception is a dedicated constructor; an API reply carries the optional
message content (`content` may be null). The input text is kept as an
argument so claims quantifying over inputs can be stated, even where the
code only forwards it into prompts.
-/

namespace LangWarn

/-- Whitespace test used by the JavaScript `String.prototype.trim`
(restricted to the ASCII whitespace the replies here can contain). -/
def isWs (c : Char) : Bool :=
  c = ' ' || c = '\t' || c = '\n' || c = '\r'

/-- ASCII lower-casing of one character, as `toLowerCase` acts on the
ASCII-only constrained replies. -/
def lowerChar (c : Char) : Char :=
  if 'A' ≤ c ∧ c ≤ 'Z' then Char.ofNat (c.toNat + 32) else c

/-- JavaScript `trim` on a character list: drop leading and trailing
whitespace. -/
def jsTrimChars (l : List Char) : List Char :=
  ((l.dropWhile isWs).reverse.dropWhile isWs).reverse

/-- JavaScript `s.trim()`. -/
def jsTrim (s : String) : String :=
  ⟨jsTrimChars s.data⟩

/-- The normalisation `content?.trim().toLowerCase() || ''` applied to an
optional reply content (null propagates to the empty string). -/
def jsTrimLower (c : Option String) : String :=
  ⟨(jsTrimChars ((c.getD "").data)).map lowerChar⟩

/-- Does the pattern occur at the head of the list? (helper for substring
search). -/
def charsStartWith : List Char → List Char → Bool
  | [], _ => true
  | _ :: _, [] => false
  | p :: ps, c :: cs => p == c && charsStartWith ps cs

/-- Does the pattern occur anywhere in the list? -/
def charsContain (pat : List Char) : List Char → Bool
  | [] => charsStartWith pat []
  | c :: cs => charsStartWith pat (c :: cs) || charsContain pat cs

/-- JavaScript `s.includes(pat)`: substring occurrence. -/
def strContains (s pat : String) : Bool :=
  charsContain pat.data s.data

/-- One ranked guess produced by `langdetect.detect`: a language code and a
confidence value. The code never reads the confidence, so its carrier type
is immaterial; an integer stands in for the float. -/
structure Detection where
  lang : String
  prob : Int
  deriving DecidableEq

/-- Behaviour of the local detector on the call `langdetect.detect(text)`:
it throws, or returns a possibly-null list of ranked guesses. -/
inductive DetectOutcome where
  | dthrow : DetectOutcome
  | dresult : Option (List Detection) → DetectOutcome
  deriving DecidableEq

/-- Behaviour of the remote yes/no classification call: the client throws,
or replies with an optional message content. -/
inductive RemoteOutcome where
  | rthrow : RemoteOutcome
  | rreply : Option String → RemoteOutcome
  deriving DecidableEq

/-- The remote-fallback tail of `isEnglish` (lines 83–93 of the language
service): on a reply, test whether `'english'` occurs in the trimmed,
lower-cased content; a throw is caught by the surrounding handler, which
returns true. -/
def fallbackRemote (remote : RemoteOutcome) : Bool :=
  match remote with
  | .rthrow => true
  | .rreply content => strContains (jsTrimLower content) "english"

/-- Embedding of `isEnglish(text)` from src/services/language.ts (identical
copy in src/index.ts lines 37–62). The whole body sits in one `try`: a
detector throw reaches the outer catch directly, returning true; a usable
detector result whose top guess is `'en'` returns true; otherwise the
remote fallback decides. -/
def isEnglish (_text : String) (det : DetectOutcome) (remote : RemoteOutcome) : Bool :=
  match det with
  | .dthrow => true
  | .dresult detections =>
    match detections with
    | some (d :: _) =>
      if d.lang = "en" then true else fallbackRemote remote
    | _ => fallbackRemote remote

/-- The guard under which `isEnglish` reaches its remote fallback: the
detector returned null, an empty list, or a top guess other than `'en'`
(a detector throw does not reach the fallback). -/
def detInconclusive : DetectOutcome → Bool
  | .dthrow => false
  | .dresult none => true
  | .dresult (some []) => true
  | .dresult (some (d :: _)) => d.lang ≠ "en"

/-- Behaviour of the remote translation call. -/
inductive TransOutcome where
  | tthrow : TransOutcome
  | treply : Option String → TransOutcome
  deriving DecidableEq

/-- Embedding of `translateText(text)` from src/services/language.ts
(identical copy in src/index.ts lines 69–85): on success the trimmed reply
content, with `'Translation error'` substituted when the content is null or
trims to the empty string, and `'Error translating text.'` returned by the
catch handler when the client throws. -/
def translateText (_text : String) (t : TransOutcome) : String :=
  match t with
  | .tthrow => "Error translating text."
  | .treply content =>
    let s := jsTrim (content.getD "")
    if s = "" then "Translation error" else s

/-- A JSON scalar value, enough to model what the vision reply's
`isEnglish` field may hold (`null`, booleans, numbers, strings). -/
inductive JValue where
  | jnull : JValue
  | jbool : Bool → JValue
  | jnum : Int → JValue
  | jstr : String → JValue
  deriving DecidableEq

/-- The two fields the code reads from a successfully parsed vision reply:
`result.text` (a string or absent/null, both coerced by `|| ''`) and
`result.isEnglish` (any JSON value or absent). -/
structure JObj where
  text : Option String
  isEnglish : Option JValue
  deriving DecidableEq

/-- Behaviour of the vision request in `analyzeImage`: the request throws;
or the (trimmed, non-empty) reply content parses as a JSON object, whose
relevant fields are recorded; or it fails to parse and the raw content is
kept. A null or all-whitespace content is replaced by the code with the
literal `'{"text":"","isEnglish":true}'`, which parses; that case is
represented by `parsed ⟨some "", some (.jbool true)⟩`. -/
inductive VisionOutcome where
  | vthrow : VisionOutcome
  | parsed : JObj → VisionOutcome
  | unparsed : String → VisionOutcome
  deriving DecidableEq

/-- Embedding of `analyzeImage(imageUrl)` from src/services/image.ts
(identical copy in src/index.ts lines 92–135). On a parsed reply:
`result.text || ''` and `result.isEnglish === false ? false : true`. On an
unparseable reply: if the raw content is non-empty and does not contain
`'NO_TEXT_FOUND'`, re-classify the raw content through `isEnglish` (the
detector/remote outcomes of that inner call are the extra arguments) and
return it as the text; otherwise no text, English. On a thrown request: no
text, English. -/
def analyzeImage (_imageUrl : String) (v : VisionOutcome)
    (det : DetectOutcome) (remote : RemoteOutcome) : String × Bool :=
  match v with
  | .vthrow => ("", true)
  | .parsed o =>
    (o.text.getD "", if o.isEnglish = some (.jbool false) then false else true)
  | .unparsed raw =>
    if 0 < raw.length ∧ strContains raw "NO_TEXT_FOUND" = false then
      (raw, isEnglish raw det remote)
    else ("", true)

/-- An outbound moderation reply: target chat, the message id replied to
(threading), and the body text. -/
structure Reply where
  chatId : Int
  replyToMessageId : Int
  body : String
  deriving DecidableEq

/-- The fixed reply template of the dispatcher. -/
def replyText (translation : String) : String :=
  "Translation: " ++ translation ++
    "\n\nPlease, refrain from usage of any language except English"

/-- Embedding of the text branch of the `channel_post` handler
(src/index.ts lines 266–279): if `message.text` is truthy, classify it; if
not English, translate and send the templated reply threaded to the
originating message. The second component records whether the translator
was invoked. -/
def handleTextPost (chatId messageId : Int) (text : String)
    (det : DetectOutcome) (remote : RemoteOutcome) (trans : TransOutcome) :
    Option Reply × Bool :=
  if text = "" then (none, false)
  else if isEnglish text det remote then (none, false)
  else (some ⟨chatId, messageId, replyText (translateText text trans)⟩, true)

/-- Embedding of the photo branch of the `channel_post` handler
(src/index.ts lines 282–306): if the resolved file has no path, return; else
run `analyzeImage` on the file URL and, when text was extracted and is not
English, translate and send the templated threaded reply. The second
component records whether the translator was invoked. -/
def handlePhotoPost (chatId messageId : Int) (filePath : Option String)
    (v : VisionOutcome) (det : DetectOutcome) (remote : RemoteOutcome)
    (trans : TransOutcome) : Option Reply × Bool :=
  match filePath with
  | none => (none, false)
  | some p =>
    let r := analyzeImage p v det remote
    if r.1 = "" then (none, false)
    else if r.2 then (none, false)
    else (some ⟨chatId, messageId, replyText (translateText r.1 trans)⟩, true)

end LangWarn

namespace LangWarn

/-- A non-empty string has positive length (used to bridge the source's
`responseContent.length > 0` guard and emptiness of the string). -/
theorem length_pos_of_ne_empty {s : String} (h : s ≠ "") : 0 < s.length := by
  obtain ⟨l⟩ := s
  cases l with
  | nil => exact absurd rfl h
  | cons c cs => exact Nat.succ_pos _

/-- Claim C3: for every input text and every local-detector behaviour, if
the remote classification call throws, `isEnglish` returns true and never
propagates the error. -/
theorem classify_remote_failure_true :
    ∀ text det, isEnglish text det .rthrow = true := by
  intro text det
  cases det with
  | dthrow => rfl
  | dresult r =>
    cases r with
    | none => rfl
    | some l =>
      cases l with
      | nil => rfl
      | cons d rest =>
        simp only [isEnglish]
        split
        · rfl
        · rfl

/-- Claim C7: whenever the local detector's top guess has code `'en'`,
`isEnglish` returns true for every remote behaviour, and the result is
identical under any two remote behaviours — the remote oracle has no
influence on this path, whatever the confidence value of the guess. -/
theorem classify_fastpath_no_remote :
    ∀ text (d : Detection) (rest : List Detection) (remote remote' : RemoteOutcome),
      d.lang = "en" →
        isEnglish text (.dresult (some (d :: rest))) remote = true ∧
        isEnglish text (.dresult (some (d :: rest))) remote =
          isEnglish text (.dresult (some (d :: rest))) remote' := by
  intro text d rest r r' h
  simp [isEnglish, h]

/-- Witness for C7 at a concrete guess with an arbitrary negative
confidence and two different remote behaviours. -/
theorem classify_fastpath_no_remote_witness :
    (Detection.mk "en" (-37)).lang = "en" ∧
      (isEnglish "Hola" (.dresult (some [⟨"en", -37⟩, ⟨"es", 1⟩])) .rthrow = true ∧
        isEnglish "Hola" (.dresult (some [⟨"en", -37⟩, ⟨"es", 1⟩])) .rthrow =
          isEnglish "Hola" (.dresult (some [⟨"en", -37⟩, ⟨"es", 1⟩]))
            (.rreply (some "no"))) :=
  ⟨rfl, classify_fastpath_no_remote "Hola" ⟨"en", -37⟩ [⟨"es", 1⟩] .rthrow
    (.rreply (some "no")) rfl⟩

/-- Counterexample to claim C1 as stated: when the local detector throws,
the code returns true directly from the outer catch handler without
consulting the remote reply — here the remote reply is `"no"`, whose
trimmed lower-cased content does not contain `'english'`, yet the result
is true rather than the substring verdict false. -/
theorem classify_detector_throw_skips_remote_cex :
    isEnglish "Bonjour" .dthrow (.rreply (some "no")) = true ∧
      strContains (jsTrimLower (some "no")) "english" = false := by
  decide

/-- Claim C1 (amended): when the local detector is inconclusive (null
result, empty list, or a top guess other than `'en'`), `isEnglish` returns
exactly the verdict of the substring test `'english' ∈` trimmed lower-cased
remote reply (a missing reply normalises to the empty string and so yields
false); when the local detector itself throws, `isEnglish` returns true
without the remote verdict playing any role. -/
theorem classify_fallback_substring_amended :
    (∀ text det c, detInconclusive det = true →
        isEnglish text det (.rreply c) = strContains (jsTrimLower c) "english") ∧
      ∀ text remote, isEnglish text .dthrow remote = true := by
  constructor
  · intro text det c h
    cases det with
    | dthrow => simp [detInconclusive] at h
    | dresult r =>
      cases r with
      | none => rfl
      | some l =>
        cases l with
        | nil => rfl
        | cons d rest =>
          simp only [detInconclusive, decide_eq_true_eq] at h
          simp [isEnglish, fallbackRemote, h]
  · intro text remote
    rfl

/-- Witness for the amended C1 at a concrete inconclusive detector outcome
and a concrete remote reply. -/
theorem classify_fallback_substring_amended_witness :
    detInconclusive (.dresult (some [⟨"fr", 9⟩])) = true ∧
      isEnglish "Bonjour" (.dresult (some [⟨"fr", 9⟩])) (.rreply (some " English! ")) =
        strContains (jsTrimLower (some " English! ")) "english" :=
  ⟨by decide, classify_fallback_substring_amended.1 "Bonjour" _ _ (by decide)⟩

/-- Claim C2: any remote reply whose trimmed lower-cased content is exactly
`'non-english'` — the designated negative token of the two-token prompt —
makes `isEnglish` return true for every detector behaviour, because
`'english'` is a substring of `'non-english'`. -/
theorem classify_non_english_reply_true :
    ∀ text det c, jsTrimLower c = "non-english" →
      isEnglish text det (.rreply c) = true := by
  intro text det c h
  have hfb : fallbackRemote (.rreply c) = true := by
    simp only [fallbackRemote, h]
    decide
  cases det with
  | dthrow => rfl
  | dresult r =>
    cases r with
    | none => exact hfb
    | some l =>
      cases l with
      | nil => exact hfb
      | cons d rest =>
        simp only [isEnglish]
        split
        · rfl
        · exact hfb

/-- Witness for C2 at a concrete reply that trims and lower-cases to
`'non-english'`. -/
theorem classify_non_english_reply_true_witness :
    jsTrimLower (some " Non-English ") = "non-english" ∧
      isEnglish "Bonjour" (.dresult (some [⟨"fr", 9⟩]))
        (.rreply (some " Non-English ")) = true :=
  ⟨by decide, classify_non_english_reply_true "Bonjour" _ _ (by decide)⟩

end LangWarn

namespace LangWarn

/-- Counterexample to claim C4 as stated: on the parseable structured reply
with an empty `text` field and an explicit `false` classification field,
`analyzeImage` returns empty extracted text together with a non-target
verdict — the empty-text-implies-target invariant fails on this response. -/
theorem extraction_empty_text_flagged_cex :
    analyzeImage "img" (.parsed ⟨some "", some (.jbool false)⟩) .dthrow .rthrow =
      ("", false) := by
  decide

/-- Claim C4 (amended): on every model behaviour, if `analyzeImage` returns
empty extracted text then the verdict is true, except on the one family of
responses the counterexample exhibits — a parseable structured reply whose
`text` field coerces to the empty string while its classification field is
the explicit boolean `false`, where the result is `("", false)`. -/
theorem extraction_empty_invariant_amended :
    ∀ url v det remote,
      (analyzeImage url v det remote).1 = "" →
      (analyzeImage url v det remote).2 = true ∨
        ∃ o, v = .parsed o ∧ o.text.getD "" = "" ∧
          o.isEnglish = some (.jbool false) := by
  intro url v det remote h
  cases v with
  | vthrow => exact Or.inl rfl
  | parsed o =>
    by_cases he : o.isEnglish = some (.jbool false)
    · exact Or.inr ⟨o, rfl, by simpa [analyzeImage] using h, he⟩
    · left
      simp [analyzeImage, he]
  | unparsed raw =>
    by_cases hc : 0 < raw.length ∧ strContains raw "NO_TEXT_FOUND" = false
    · exfalso
      have h1 : raw = "" := by simpa [analyzeImage, hc] using h
      rw [h1] at hc
      exact absurd hc.1 (by decide)
    · left
      simp [analyzeImage, hc]

/-- Witness for the amended C4 at a thrown vision request, where the
extracted text is empty and the verdict is true. -/
theorem extraction_empty_invariant_amended_witness :
    (analyzeImage "img" .vthrow .dthrow .rthrow).1 = "" ∧
      ((analyzeImage "img" .vthrow .dthrow .rthrow).2 = true ∨
        ∃ o, VisionOutcome.vthrow = VisionOutcome.parsed o ∧
          o.text.getD "" = "" ∧ o.isEnglish = some (.jbool false)) :=
  ⟨rfl, extraction_empty_invariant_amended "img" .vthrow .dthrow .rthrow rfl⟩

/-- Counterexample to claim C5 as stated: the two failure modes of
`translateText` return two different placeholder strings — an empty reply
yields `'Translation error'` while a thrown call yields
`'Error translating text.'` — so no single fixed placeholder covers every
failure. -/
theorem translate_two_placeholders_cex :
    translateText "Bonjour" (.treply (some "")) = "Translation error" ∧
      translateText "Bonjour" .tthrow = "Error translating text." ∧
      ("Translation error" : String) ≠ "Error translating text." := by
  decide

/-- Claim C5 (amended): `translateText` never throws and is total; a thrown
remote call returns the fixed placeholder `'Error translating text.'`, a
missing reply or one trimming to the empty string returns the distinct
fixed placeholder `'Translation error'`, and a non-blank reply returns its
trimmed content. -/
theorem translate_failure_amended :
    ∀ text c,
      translateText text .tthrow = "Error translating text." ∧
      translateText text (.treply none) = "Translation error" ∧
      (jsTrim c = "" → translateText text (.treply (some c)) = "Translation error") ∧
      (jsTrim c ≠ "" → translateText text (.treply (some c)) = jsTrim c) := by
  intro text c
  refine ⟨rfl, rfl, ?_, ?_⟩
  · intro h
    simp [translateText, h]
  · intro h
    simp [translateText, h]

/-- Witness for the amended C5 at a blank reply and at a non-blank reply. -/
theorem translate_failure_amended_witness :
    (jsTrim "  " = "" ∧
        translateText "Bonjour" (.treply (some "  ")) = "Translation error") ∧
      jsTrim " Hello " ≠ "" ∧
        translateText "Bonjour" (.treply (some " Hello ")) = jsTrim " Hello " :=
  ⟨⟨by decide, (translate_failure_amended "Bonjour" "  ").2.2.1 (by decide)⟩,
    ⟨by decide, (translate_failure_amended "Bonjour" " Hello ").2.2.2 (by decide)⟩⟩

end LangWarn

namespace LangWarn

/-- Claim C6: the dispatcher emits a reply exactly when the content yields
non-empty extracted text classified as non-English; the reply body is the
verbatim template `Translation: {t}` followed by a blank line and the fixed
reminder, threaded to the originating chat id and message id; in every
other case no reply is sent and the translator is not invoked (second
component false). This holds for the text branch, for the photo branch
when the file path resolves, and the photo branch without a file path does
nothing. -/
theorem dispatch_reply_template_iff :
    ∀ (chatId messageId : Int) text det remote trans (p : String) v,
      (handleTextPost chatId messageId text det remote trans =
        if text ≠ "" ∧ isEnglish text det remote = false then
          (some ⟨chatId, messageId,
            "Translation: " ++ translateText text trans ++
              "\n\nPlease, refrain from usage of any language except English"⟩,
            true)
        else (none, false)) ∧
      (handlePhotoPost chatId messageId (some p) v det remote trans =
        if (analyzeImage p v det remote).1 ≠ "" ∧
            (analyzeImage p v det remote).2 = false then
          (some ⟨chatId, messageId,
            "Translation: " ++ translateText (analyzeImage p v det remote).1 trans ++
              "\n\nPlease, refrain from usage of any language except English"⟩,
            true)
        else (none, false)) ∧
      handlePhotoPost chatId messageId none v det remote trans = (none, false) := by
  intro chatId messageId text det remote trans p v
  refine ⟨?_, ?_, rfl⟩
  · by_cases h1 : text = ""
    · simp [handleTextPost, h1]
    · by_cases h2 : isEnglish text det remote
      · simp [handleTextPost, replyText, h1, h2]
      · simp [handleTextPost, replyText, h1, h2]
  · by_cases h1 : (analyzeImage p v det remote).1 = ""
    · simp [handlePhotoPost, h1]
    · by_cases h2 : (analyzeImage p v det remote).2
      · simp [handlePhotoPost, replyText, h1, h2]
      · simp [handlePhotoPost, replyText, h1, h2]

/-- Claim C8: on a reply that parses as the expected structure,
`analyzeImage` returns the `text` field verbatim (a present string is kept
as is, an absent one becomes the empty string) and returns a false verdict
exactly when the classification field is the explicit boolean `false` —
absence, `null`, `0` or `"no"` all default to true. -/
theorem analyzeImage_parsed_fields :
    ∀ url (s : String) (t : Option String) (e : Option JValue) det remote,
      (analyzeImage url (.parsed ⟨some s, e⟩) det remote).1 = s ∧
      (analyzeImage url (.parsed ⟨none, e⟩) det remote).1 = "" ∧
      ((analyzeImage url (.parsed ⟨t, e⟩) det remote).2 = false ↔
        e = some (.jbool false)) := by
  intro url s t e det remote
  refine ⟨rfl, rfl, ?_⟩
  by_cases h : e = some (JValue.jbool false)
  · simp [analyzeImage, h]
  · simp [analyzeImage, h]

/-- Witness for C8 at a concrete structured reply carrying text and an
explicit false classification. -/
theorem analyzeImage_parsed_fields_witness :
    (analyzeImage "u" (.parsed ⟨some "Bonjour", some (.jbool false)⟩)
        .dthrow .rthrow).1 = "Bonjour" ∧
      ((analyzeImage "u" (.parsed ⟨some "Bonjour", some (.jbool false)⟩)
          .dthrow .rthrow).2 = false ↔
        some (JValue.jbool false) = some (JValue.jbool false)) :=
  ⟨(analyzeImage_parsed_fields "u" "Bonjour" (some "Bonjour")
      (some (.jbool false)) .dthrow .rthrow).1,
    (analyzeImage_parsed_fields "u" "Bonjour" (some "Bonjour")
      (some (.jbool false)) .dthrow .rthrow).2.2⟩

/-- Claim C9: on an unparseable reply, `analyzeImage` returns the raw
content verbatim together with the verdict of re-running it through the
classifier, unless the raw content is empty or contains the
`'NO_TEXT_FOUND'` sentinel, in which case it returns empty text and a true
verdict. -/
theorem analyzeImage_unparsed_fallback :
    ∀ url raw det remote,
      (raw ≠ "" → strContains raw "NO_TEXT_FOUND" = false →
        analyzeImage url (.unparsed raw) det remote =
          (raw, isEnglish raw det remote)) ∧
      (raw = "" → analyzeImage url (.unparsed raw) det remote = ("", true)) ∧
      (strContains raw "NO_TEXT_FOUND" = true →
        analyzeImage url (.unparsed raw) det remote = ("", true)) := by
  intro url raw det remote
  refine ⟨?_, ?_, ?_⟩
  · intro h1 h2
    have hl : 0 < raw.length := length_pos_of_ne_empty h1
    simp [analyzeImage, hl, h2]
  · intro h1
    subst h1
    simp only [analyzeImage]
    rw [if_neg]
    intro hc
    exact absurd hc.1 (by decide)
  · intro h2
    simp only [analyzeImage]
    rw [if_neg]
    intro hc
    rw [h2] at hc
    exact absurd hc.2 (by decide)

/-- Witness for C9 at the unparseable reply `"Some text"`, with the inner
classifier run on an inconclusive detector and a negative remote reply. -/
theorem analyzeImage_unparsed_fallback_witness :
    ("Some text" : String) ≠ "" ∧
      strContains "Some text" "NO_TEXT_FOUND" = false ∧
      analyzeImage "u" (.unparsed "Some text") (.dresult none) (.rreply (some "no")) =
        ("Some text", isEnglish "Some text" (.dresult none) (.rreply (some "no"))) :=
  ⟨by decide, by decide,
    (analyzeImage_unparsed_fallback "u" "Some text" (.dresult none)
      (.rreply (some "no"))).1 (by decide) (by decide)⟩

/-- Counterexample to claim C10 as stated: the code has no empty-string
special case, so a local detector returning a non-English top guess on the
empty input combined with a remote reply lacking the token makes the
classifier return false — not true for every behaviour. -/
theorem classify_empty_input_cex :
    isEnglish "" (.dresult (some [⟨"fr", 9⟩])) (.rreply (some "no")) = false := by
  decide

/-- Claim C10 (amended): on the empty-string input the classifier returns
true whenever the local detector throws on it (the behaviour of the real
statistical detector on empty input), for every remote behaviour; and the
dispatcher emits no reply and performs no translation for an empty text
message. -/
theorem classify_empty_input_amended :
    (∀ remote, isEnglish "" .dthrow remote = true) ∧
      ∀ (chatId messageId : Int) det remote trans,
        handleTextPost chatId messageId "" det remote trans = (none, false) := by
  constructor
  · intro remote
    rfl
  · intro chatId messageId det remote trans
    simp [handleTextPost]

end LangWarn
